import Mathlib

/-!
Shallow embedding of `mate_slideshow.py`, a tool that generates a MATE
background-slideshow XML descriptor from a directory of images and stages
the images and the descriptor into `/usr/share/backgrounds/`.

Modelling conventions:
* A filesystem directory is modelled by the list of its entry names in
  enumeration order; `pathlib.Path.glob` calls become filters over that list
  (fnmatch semantics: the pattern `*.ext` matches exactly the names ending in
  `.ext`, case-sensitively, and the pattern `*` matches every entry name).
* Paths are strings; the Python `dir / name` (pathlib `/` operator, rendered
  by an f-string) is string concatenation with a `/` separator, assuming the
  directory path carries no trailing slash, as in the program.
* Python's arbitrary-precision integers are `Int`.  The float expression
  `image_duration * 60.0` is embedded exactly: the int is rounded to the
  binary64 grid (round-to-nearest-even; `OverflowError` beyond the float
  range), the product with 60.0 is rounded again (overflow yields an
  infinity), and repr rendering produces digits with a `.0` suffix below
  10^16, shortest round-trip scientific notation above, or `inf`.  All of it
  is exact integer arithmetic, since every value of this pipeline is an
  integral double.
* Functions that touch the filesystem return their effects as data:
  `create_xml_file` returns the list of `(path, content)` writes it performs,
  and `main` returns either a validation error or the ordered list of
  filesystem effects it performs.
-/

namespace MateSlideshow

set_option maxRecDepth 16384

/-- String suffix test over the character data of the strings.  Used to embed
fnmatch matching of a pattern `*.ext`: a name matches exactly when it ends
with `"." ++ ext` (case-sensitively). -/
def strEndsWith (s suf : String) : Bool :=
  decide (s.data.drop (s.data.length - suf.data.length) = suf.data)

/-- String prefix test over the character data of the strings.  Observer used
to pick tagged lines (such as those starting with a given opening tag) out of
the generated descriptor. -/
def strBeginsWith (s pre : String) : Bool :=
  decide (s.data.take pre.data.length = pre.data)

/-- Embeds the f-string rendering of `target_directory_path / image_path.name`
(pathlib `/`): the directory path, a slash, and the file name. -/
def joinPath (dir name : String) : String :=
  dir ++ ("/" ++ name)

/-- Embeds pathlib `Path.name`: the final component of a (normalized,
no-trailing-slash) path string. -/
def pathName (p : String) : String :=
  (p.splitOn "/").getLastD ""

/-- The Python exception the duration arithmetic can raise besides the
validation errors: `OverflowError` from converting an int that exceeds the
binary64 range. -/
inductive PyExc where
  | overflowError
deriving DecidableEq

/-- A CPython float produced by the duration arithmetic: a finite binary64
with integral value, or an infinity from float-multiplication overflow.
Every value of the pipeline `float(image_duration) * 60.0` is an integral
double: binary64 values of magnitude at least 2^52 are integers, and smaller
intermediate values are exact. -/
inductive PyFloat where
  | finite (val : Int)
  | inf
  | ninf
deriving DecidableEq

/-- Fuel-bounded doubling search: the least number of doublings of `p` needed
before `n` is below it.  With fuel 2200 and start `2 ^ 53` this is the
binary64 scaling exponent of `n` for every `n` below `2 ^ 2253`, far beyond
the overflow threshold. -/
def dblScale : Nat → Nat → Nat → Nat
  | 0, _, _ => 0
  | fuel + 1, n, p => if n < p then 0 else dblScale fuel n (2 * p) + 1

/-- Round-to-nearest-even of a natural number onto the binary64 grid (53
significant bits), with unbounded exponent: values of 53 bits or fewer are
exact; otherwise the low `e` bits are rounded away, ties going to the even
multiple.  A result of `2 ^ 1024` or more means the value overflows the
binary64 range. -/
def roundTo53 (n : Nat) : Nat :=
  let e := dblScale 2200 n (2 ^ 53)
  let p := 2 ^ e
  let q := n / p
  let r := n % p
  let q' := if 2 * r < p then q
            else if p < 2 * r then q + 1
            else if q % 2 = 0 then q else q + 1
  q' * p

/-- Embeds CPython `float(n)` for an int `n`: round-to-nearest-even to
binary64, raising `OverflowError` when the rounded magnitude reaches
`2 ^ 1024` (this includes the tie at `2 ^ 1024 - 2 ^ 970`, which rounds up to
the even mantissa). -/
def float_of_int (n : Int) : Except PyExc PyFloat :=
  let r := roundTo53 n.natAbs
  if 2 ^ 1024 ≤ r then .error .overflowError
  else .ok (.finite (if n < 0 then -(r : Int) else (r : Int)))

/-- Embeds multiplication of a CPython float by `60.0`: the exact product
rounded back to binary64 (60.0 is exactly representable and IEEE
multiplication is correctly rounded); overflow of the product yields an
infinity, which CPython returns rather than raising. -/
def float_mul60 : PyFloat → PyFloat
  | .finite v =>
      let r := roundTo53 (60 * v.natAbs)
      if 2 ^ 1024 ≤ r then (if v < 0 then .ninf else .inf)
      else .finite (if v < 0 then -(r : Int) else (r : Int))
  | .inf => .inf
  | .ninf => .ninf

/-- Fuel-bounded decimal-length search: the least number of times `p` must be
multiplied by 10 before `n` is below it; `decScale 400 n 1` is the number of
decimal digits of `n`. -/
def decScale : Nat → Nat → Nat → Nat
  | 0, _, _ => 0
  | fuel + 1, n, p => if n < p then 0 else decScale fuel n (10 * p) + 1

/-- Whether the decimal `c` parses back to the double whose acceptance
interval, scaled by 4, is `[lo4, hi4]` — bounds included exactly when the
double's mantissa is even (round-to-nearest-even tie rule). -/
def candValid (incl : Bool) (lo4 hi4 c : Nat) : Bool :=
  if incl then decide (lo4 ≤ 4 * c) && decide (4 * c ≤ hi4)
  else decide (lo4 < 4 * c) && decide (4 * c < hi4)

/-- Fuel-bounded shortest-round-trip search over significand lengths: try the
two nearest multiples of `step` (the decimals with the current number of
significant digits); if neither parses back to `v`, refine `step` by 10.
This is CPython repr's shortest correctly-rounded decimal for the integral
double `v`; the search always terminates at `step = 1`, where `v` itself is
valid. -/
def shortestCand (fuel : Nat) (v lo4 hi4 : Nat) (incl : Bool) (step : Nat) : Nat :=
  match fuel with
  | 0 => v
  | fuel + 1 =>
      let c1 := v / step * step
      let c2 := c1 + step
      if candValid incl lo4 hi4 c1 && candValid incl lo4 hi4 c2 then
        (if v - c1 < c2 - v then c1
         else if c2 - v < v - c1 then c2
         else if (c1 / step) % 2 = 0 then c1 else c2)
      else if candValid incl lo4 hi4 c1 then c1
      else if candValid incl lo4 hi4 c2 then c2
      else shortestCand fuel v lo4 hi4 incl (step / 10)

/-- Fuel-bounded removal of trailing decimal zeros. -/
def stripZeros : Nat → Nat → Nat
  | 0, c => c
  | fuel + 1, c => if c % 10 == 0 && c != 0 then stripZeros fuel (c / 10) else c

/-- CPython repr of a positive integral binary64 value of magnitude at least
10^16: scientific notation `d.ddde+EE` with the shortest significand that
round-trips and at least two exponent digits.  The lower acceptance bound is
a quarter ulp when the value is the smallest double of its binade (the
spacing below it is halved), half an ulp otherwise. -/
def sciRepr (v : Nat) : String :=
  let e := dblScale 2200 v (2 ^ 53)
  let u := 2 ^ e
  let m := v / u
  let lo4 := if m = 2 ^ 52 then 4 * v - u else 4 * v - 2 * u
  let hi4 := 4 * v + 2 * u
  let incl := decide (m % 2 = 0)
  let digits := decScale 400 v 1
  let c := shortestCand 400 v lo4 hi4 incl (10 ^ (digits - 1))
  let cexp := decScale 400 c 1 - 1
  let ds := (toString (stripZeros 400 c)).data
  String.mk (ds.take 1) ++
    (if 2 ≤ ds.length then "." ++ String.mk (ds.drop 1) else "") ++
    "e+" ++ (if cexp < 10 then "0" ++ toString cexp else toString cexp)

/-- CPython repr of a nonnegative integral binary64 value: digits with an
explicit `.0` suffix below 10^16, scientific notation from 10^16 up. -/
def posIntegralRepr (v : Nat) : String :=
  if v < 10 ^ 16 then toString v ++ ".0" else sciRepr v

/-- CPython repr / f-string rendering of a `PyFloat`. -/
def float_repr : PyFloat → String
  | .finite v => if v < 0 then "-" ++ posIntegralRepr v.natAbs else posIntegralRepr v.natAbs
  | .inf => "inf"
  | .ninf => "-inf"

/-- Embeds the value of the f-string fragment `{image_duration * 60.0}` (src
line 102): convert the int to binary64 (`OverflowError` beyond the float
range), multiply by 60.0 (overflow yields an infinity), and render the result
with repr.  Checked against CPython on the exact rendering, the scientific
switch at 10^16, the infinity at products above the float range, and the
conversion overflow. -/
def py_mul60_string (image_duration : Int) : Except PyExc String :=
  match float_of_int image_duration with
  | .error e => .error e
  | .ok f => .ok (float_repr (float_mul60 f))

/-- The static-duration text emitted for an image duration whose float
conversion succeeds.  Where `py_mul60_string` raises `OverflowError` the
program emits nothing — the exception aborts `create_xml_file` (see
`create_xml_file_run`); this total function returns `""` there, a string the
program never produces. -/
def mul60_text (image_duration : Int) : String :=
  match py_mul60_string image_duration with
  | .ok s => s
  | .error _ => ""

/-- Embeds one `path.glob("*." + file_extension)` call (src line 124): the
entries of the directory listing whose names match the pattern, i.e. end with
`"." ++ file_extension`, in listing order. -/
def glob_extension (dirListing : List String) (file_extension : String) : List String :=
  dirListing.filter (fun name => strEndsWith name ("." ++ file_extension))

/-- Embeds `glob_all_extensions` (src lines 121-125): for each extension in
turn, extend the accumulated list with the matching entries. -/
def glob_all_extensions (dirListing : List String) (extensions : List String) : List String :=
  extensions.foldl (fun all_files file_extension =>
    all_files ++ glob_extension dirListing file_extension) []

/-- The extension list used by `create_xml_file` (src line 94). -/
def extensions : List String :=
  ["jpg", "jpeg", "png"]

/-- Embeds `pair_elements` (src lines 128-133): pair each element at
`item_index` with the element at `item_index + 1`, wrapping the last index
around to `0`. -/
def pair_elements (elements : List String) : List (String × String) :=
  (List.range elements.length).map (fun item_index =>
    let next_item_index := if item_index < elements.length - 1 then item_index + 1 else 0
    (elements.getD item_index "", elements.getD next_item_index ""))

/-- Embeds the initial `xml_content` list of `create_xml_file` (src lines
81-92).  The fourth element is a single Python list element: two adjacent
string literals with no comma between them are concatenated, so the year line
and the month line form one string that still contains both newlines. -/
def header : List String :=
  [ "<background>\n",
    "-\n",
    "<starttime>\n",
    "<year>2009</year>\n<month>08</month>\n",
    "<day>04</day>\n",
    "<hour>00</hour>\n",
    "<minute>00</minute>\n",
    "<second>00</second>\n",
    "</starttime>\n" ]

/-- Embeds the `image_xml` block built for one (image, next image) pair in the
loop of `create_xml_file` (src lines 99-111).  Image arguments are the bare
file names produced by globbing, so `image_path.name` is the name itself. -/
def image_xml (image_duration transition_duration : Int)
    (target_directory_path image_name next_image_name : String) : List String :=
  [ "-\n",
    "<static>\n",
    "<duration>" ++ (mul60_text image_duration ++ "</duration>\n"),
    "<file>" ++ (joinPath target_directory_path image_name ++ "</file>\n"),
    "</static>\n",
    "-\n",
    "<transition>\n",
    "<duration>" ++ (toString transition_duration ++ "</duration>\n"),
    "<from>" ++ (joinPath target_directory_path image_name ++ "</from>\n"),
    "<to>" ++ (joinPath target_directory_path next_image_name ++ "</to>\n"),
    "</transition>\n" ]

/-- The descriptor line list built by `create_xml_file` for a given image
list (src lines 81-113): header, one `image_xml` block per cyclic pair, and
the closing `</background>` line. -/
def xml_body (images : List String) (image_duration transition_duration : Int)
    (target_directory_path : String) : List String :=
  header ++
    (pair_elements images).flatMap (fun p =>
      image_xml image_duration transition_duration target_directory_path p.1 p.2) ++
    ["</background>\n"]

/-- The descriptor line list built by `create_xml_file` from a source
directory listing: the image list is `glob_all_extensions` over the fixed
extension list (src lines 94-98). -/
def xml_content (dirListing : List String) (image_duration transition_duration : Int)
    (target_directory_path : String) : List String :=
  xml_body (glob_all_extensions dirListing extensions)
    image_duration transition_duration target_directory_path

/-- Embeds `create_xml_file` (src lines 76-118) including its file write: the
function builds the descriptor and writes it to
`target_directory_path / (target_directory_path.name + ".xml")`.  The result
is the list of `(path, content)` filesystem writes performed, in order. -/
def create_xml_file (dirListing : List String) (image_duration transition_duration : Int)
    (target_directory_path : String) : List (String × String) :=
  [ (joinPath target_directory_path (pathName target_directory_path ++ ".xml"),
     String.join (xml_content dirListing image_duration transition_duration
       target_directory_path)) ]

/-- Embeds the run of `create_xml_file` including the exception path of the
duration f-string (src line 102): the first loop iteration raises
`OverflowError` when the image duration exceeds the binary64 range, so with a
non-empty globbed image list the function aborts before writing anything;
with an empty list the loop body never runs and the write happens as usual.
The transition f-string (src line 107) renders the int directly and cannot
raise. -/
def create_xml_file_run (dirListing : List String)
    (image_duration transition_duration : Int) (target_directory_path : String) :
    Except PyExc (List (String × String)) :=
  match py_mul60_string image_duration with
  | .error e =>
      if glob_all_extensions dirListing extensions = [] then
        .ok (create_xml_file dirListing image_duration transition_duration
          target_directory_path)
      else .error e
  | .ok _ =>
      .ok (create_xml_file dirListing image_duration transition_duration
        target_directory_path)

/-- The exception classes of the program (src lines 136-154). -/
inductive ArgError where
  | image_directory_path_error (path : String)
  | image_duration_error (duration : Int)
  | transition_duration_error (duration : Int)
deriving DecidableEq

/-- Whether an error is one of the two duration errors, i.e. belongs to the
`DurationError` category of the specification's error taxonomy. -/
def ArgError.isDurationError : ArgError → Bool
  | .image_duration_error _ => true
  | .transition_duration_error _ => true
  | .image_directory_path_error _ => false

/-- The parsed command-line arguments (src lines 41-62). -/
structure Arguments where
  images_directory_path : String
  image_duration : Int
  transition_duration : Int
  directory_name : Option String
deriving DecidableEq

/-- Embeds the validation part of `parse_arguments` (src lines 66-73):
path check first, then image duration, then transition duration.
`fsIsDir` tells whether `images_directory_path` exists and is a directory. -/
def parse_arguments (fsIsDir : Bool) (args : Arguments) : Except ArgError Arguments :=
  if !fsIsDir then
    .error (.image_directory_path_error args.images_directory_path)
  else if args.image_duration ≤ 0 then
    .error (.image_duration_error args.image_duration)
  else if args.transition_duration < 0 then
    .error (.transition_duration_error args.transition_duration)
  else
    .ok args

/-- Embeds `arguments.directory_name or arguments.images_directory_path.name`
(src lines 13-14): Python `or` falls back when the option is absent or the
string is empty (falsy). -/
def images_directory_name (args : Arguments) : String :=
  match args.directory_name with
  | some s => if s = "" then pathName args.images_directory_path else s
  | none => pathName args.images_directory_path

/-- Embeds `Path(USR_BACKGROUNDS_PATH, images_directory_name)` (src line 15):
pathlib drops the trailing slash of `/usr/share/backgrounds/` when joining. -/
def target_directory_path (args : Arguments) : String :=
  "/usr/share/backgrounds/" ++ images_directory_name args

/-- One filesystem effect performed by `main`: directory creation, a file
write, or a file copy (`shutil.copy`, which silently overwrites). -/
inductive FsEffect where
  | mkdir (path : String)
  | writeFile (path content : String)
  | copyFile (src dst : String)
deriving DecidableEq

/-- Whether an effect is a file copy. -/
def FsEffect.isCopy : FsEffect → Bool
  | .copyFile _ _ => true
  | _ => false

/-- Whether an effect is a file write. -/
def FsEffect.isWrite : FsEffect → Bool
  | .writeFile _ _ => true
  | _ => false

/-- Embeds `main` (src lines 11-34): parse and validate the arguments, then
create the target directory, write the XML file, and copy every entry the
glob pattern `*` matches (every entry of the source directory listing) to the
target directory.  The result is the validation error, or the ordered list of
filesystem effects performed. -/
def main (fsIsDir : Bool) (dirListing : List String) (args : Arguments) :
    Except ArgError (List FsEffect) :=
  match parse_arguments fsIsDir args with
  | .error e => .error e
  | .ok a =>
      .ok ([FsEffect.mkdir (target_directory_path a)] ++
        (create_xml_file dirListing a.image_duration a.transition_duration
          (target_directory_path a)).map (fun w => FsEffect.writeFile w.1 w.2) ++
        dirListing.map (fun image_name =>
          FsEffect.copyFile (joinPath a.images_directory_path image_name)
            (joinPath (target_directory_path a) image_name)))

/-- The filesystem effects of a `main` result: none when validation failed
(nothing runs before `parse_arguments` returns), otherwise the effect list. -/
def effectsOf : Except ArgError (List FsEffect) → List FsEffect
  | .error _ => []
  | .ok fx => fx

/-- Observer: how many lines of the generated descriptor are exactly `s`. -/
def countLine (s : String) : List String → Nat
  | [] => 0
  | l :: rest => (if l = s then 1 else 0) + countLine s rest

/-- Observer: the lines of the descriptor that start with `<to>`. -/
def toLines (lines : List String) : List String :=
  lines.filter (fun l => strBeginsWith l "<to>")

/-- Observer: the lines of the descriptor that start with `<from>`. -/
def fromLines (lines : List String) : List String :=
  lines.filter (fun l => strBeginsWith l "<from>")

/-- Observer: the lines of the descriptor that start with `<file>`. -/
def fileLines (lines : List String) : List String :=
  lines.filter (fun l => strBeginsWith l "<file>")

/-- The start-of-file block exactly as laid out in the specification's
file-format section, with `<year>2009</year><month>08</month>` on a single
line.  This definition follows the spec's words, for comparison with the
block the program emits. -/
def spec_documented_start_block : String :=
  "<background>\n-\n<starttime>\n<year>2009</year><month>08</month>\n<day>04</day>\n<hour>00</hour>\n<minute>00</minute>\n<second>00</second>\n</starttime>\n"

/-- The start-of-file block the program actually emits: the same constant
calendar timestamp, but with the year element and the month element each on
its own line. -/
def emitted_start_block : String :=
  "<background>\n-\n<starttime>\n<year>2009</year>\n<month>08</month>\n<day>04</day>\n<hour>00</hour>\n<minute>00</minute>\n<second>00</second>\n</starttime>\n"

/-! Helper lemmas about strings, line counting and line filtering. -/

theorem ne_of_data_take (p x t : String) (hk : 3 ≤ p.data.length)
    (h : ¬ p.data.take 3 = t.data.take 3) : ¬ p ++ x = t := by
  intro heq
  apply h
  have hd : p.data ++ x.data = t.data := by rw [← String.data_append, heq]
  rw [← hd, List.take_append_of_le_length hk]

theorem strBeginsWith_append (p x t : String) (h : t.data.length ≤ p.data.length) :
    strBeginsWith (p ++ x) t = strBeginsWith p t := by
  unfold strBeginsWith
  rw [String.data_append, List.take_append_of_le_length h]

theorem strBeginsWith_append_false (p x t : String) (k : Nat) (hp : k ≤ p.data.length)
    (ht : k ≤ t.data.length) (h : ¬ p.data.take k = t.data.take k) :
    strBeginsWith (p ++ x) t = false := by
  unfold strBeginsWith
  rw [String.data_append]
  apply decide_eq_false
  intro heq
  apply h
  have h3 : ((p.data ++ x.data).take t.data.length).take k = t.data.take k := by rw [heq]
  rw [List.take_take, min_eq_left ht] at h3
  rw [← h3, List.take_append_of_le_length hp]

theorem countLine_nil (s : String) : countLine s [] = 0 := rfl

theorem countLine_cons (s l : String) (rest : List String) :
    countLine s (l :: rest) = (if l = s then 1 else 0) + countLine s rest := rfl

theorem countLine_append (s : String) (a b : List String) :
    countLine s (a ++ b) = countLine s a + countLine s b := by
  induction a with
  | nil => simp [countLine]
  | cons x xs ih => simp [countLine, ih, Nat.add_assoc]

theorem countLine_static_image_xml (d t : Int) (tgt a b : String) :
    countLine "<static>\n" (image_xml d t tgt a b) = 1 := by
  have h1 : ¬ ("<duration>" ++ (mul60_text d ++ "</duration>\n") = "<static>\n") :=
    ne_of_data_take _ _ _ (by decide) (by decide)
  have h2 : ¬ ("<file>" ++ (joinPath tgt a ++ "</file>\n") = "<static>\n") :=
    ne_of_data_take _ _ _ (by decide) (by decide)
  have h3 : ¬ ("<duration>" ++ (toString t ++ "</duration>\n") = "<static>\n") :=
    ne_of_data_take _ _ _ (by decide) (by decide)
  have h4 : ¬ ("<from>" ++ (joinPath tgt a ++ "</from>\n") = "<static>\n") :=
    ne_of_data_take _ _ _ (by decide) (by decide)
  have h5 : ¬ ("<to>" ++ (joinPath tgt b ++ "</to>\n") = "<static>\n") :=
    ne_of_data_take _ _ _ (by decide) (by decide)
  simp [image_xml, countLine, h1, h2, h3, h4, h5]

theorem countLine_transition_image_xml (d t : Int) (tgt a b : String) :
    countLine "<transition>\n" (image_xml d t tgt a b) = 1 := by
  have h1 : ¬ ("<duration>" ++ (mul60_text d ++ "</duration>\n") = "<transition>\n") :=
    ne_of_data_take _ _ _ (by decide) (by decide)
  have h2 : ¬ ("<file>" ++ (joinPath tgt a ++ "</file>\n") = "<transition>\n") :=
    ne_of_data_take _ _ _ (by decide) (by decide)
  have h3 : ¬ ("<duration>" ++ (toString t ++ "</duration>\n") = "<transition>\n") :=
    ne_of_data_take _ _ _ (by decide) (by decide)
  have h4 : ¬ ("<from>" ++ (joinPath tgt a ++ "</from>\n") = "<transition>\n") :=
    ne_of_data_take _ _ _ (by decide) (by decide)
  have h5 : ¬ ("<to>" ++ (joinPath tgt b ++ "</to>\n") = "<transition>\n") :=
    ne_of_data_take _ _ _ (by decide) (by decide)
  simp [image_xml, countLine, h1, h2, h3, h4, h5]

theorem countLine_static_flatMap (d t : Int) (tgt : String) (pairs : List (String × String)) :
    countLine "<static>\n"
      (pairs.flatMap (fun p => image_xml d t tgt p.1 p.2)) = pairs.length := by
  induction pairs with
  | nil => rfl
  | cons p ps ih =>
      simp [List.flatMap_cons, countLine_append, countLine_static_image_xml, ih, Nat.add_comm]

theorem countLine_transition_flatMap (d t : Int) (tgt : String)
    (pairs : List (String × String)) :
    countLine "<transition>\n"
      (pairs.flatMap (fun p => image_xml d t tgt p.1 p.2)) = pairs.length := by
  induction pairs with
  | nil => rfl
  | cons p ps ih =>
      simp [List.flatMap_cons, countLine_append, countLine_transition_image_xml, ih, Nat.add_comm]

theorem countLine_static_xml_body (images : List String) (d t : Int) (tgt : String) :
    countLine "<static>\n" (xml_body images d t tgt) = images.length := by
  unfold xml_body
  rw [countLine_append, countLine_append, countLine_static_flatMap]
  simp [pair_elements, countLine, header]

theorem countLine_transition_xml_body (images : List String) (d t : Int) (tgt : String) :
    countLine "<transition>\n" (xml_body images d t tgt) = images.length := by
  unfold xml_body
  rw [countLine_append, countLine_append, countLine_transition_flatMap]
  simp [pair_elements, countLine, header]

theorem toLines_append (a b : List String) : toLines (a ++ b) = toLines a ++ toLines b :=
  List.filter_append a b

theorem fromLines_append (a b : List String) :
    fromLines (a ++ b) = fromLines a ++ fromLines b :=
  List.filter_append a b

theorem fileLines_append (a b : List String) :
    fileLines (a ++ b) = fileLines a ++ fileLines b :=
  List.filter_append a b

theorem toLines_image_xml (d t : Int) (tgt a b : String) :
    toLines (image_xml d t tgt a b) = ["<to>" ++ (joinPath tgt b ++ "</to>\n")] := by
  have e1 : strBeginsWith ("<duration>" ++ (mul60_text d ++ "</duration>\n")) "<to>" = false :=
    strBeginsWith_append_false _ _ _ 3 (by decide) (by decide) (by decide)
  have e2 : strBeginsWith ("<file>" ++ (joinPath tgt a ++ "</file>\n")) "<to>" = false :=
    strBeginsWith_append_false _ _ _ 3 (by decide) (by decide) (by decide)
  have e3 : strBeginsWith ("<duration>" ++ (toString t ++ "</duration>\n")) "<to>" = false :=
    strBeginsWith_append_false _ _ _ 3 (by decide) (by decide) (by decide)
  have e4 : strBeginsWith ("<from>" ++ (joinPath tgt a ++ "</from>\n")) "<to>" = false :=
    strBeginsWith_append_false _ _ _ 3 (by decide) (by decide) (by decide)
  have e5 : strBeginsWith ("<to>" ++ (joinPath tgt b ++ "</to>\n")) "<to>" = true := by
    rw [strBeginsWith_append _ _ _ (by decide)]; decide
  have k1 : strBeginsWith "-\n" "<to>" = false := by decide
  have k2 : strBeginsWith "<static>\n" "<to>" = false := by decide
  have k3 : strBeginsWith "</static>\n" "<to>" = false := by decide
  have k4 : strBeginsWith "<transition>\n" "<to>" = false := by decide
  have k5 : strBeginsWith "</transition>\n" "<to>" = false := by decide
  simp [toLines, image_xml, List.filter, e1, e2, e3, e4, e5, k1, k2, k3, k4, k5]

theorem fromLines_image_xml (d t : Int) (tgt a b : String) :
    fromLines (image_xml d t tgt a b) = ["<from>" ++ (joinPath tgt a ++ "</from>\n")] := by
  have e1 : strBeginsWith ("<duration>" ++ (mul60_text d ++ "</duration>\n")) "<from>" = false :=
    strBeginsWith_append_false _ _ _ 3 (by decide) (by decide) (by decide)
  have e2 : strBeginsWith ("<file>" ++ (joinPath tgt a ++ "</file>\n")) "<from>" = false :=
    strBeginsWith_append_false _ _ _ 3 (by decide) (by decide) (by decide)
  have e3 : strBeginsWith ("<duration>" ++ (toString t ++ "</duration>\n")) "<from>" = false :=
    strBeginsWith_append_false _ _ _ 3 (by decide) (by decide) (by decide)
  have e4 : strBeginsWith ("<from>" ++ (joinPath tgt a ++ "</from>\n")) "<from>" = true := by
    rw [strBeginsWith_append _ _ _ (by decide)]; decide
  have e5 : strBeginsWith ("<to>" ++ (joinPath tgt b ++ "</to>\n")) "<from>" = false :=
    strBeginsWith_append_false _ _ _ 3 (by decide) (by decide) (by decide)
  have k1 : strBeginsWith "-\n" "<from>" = false := by decide
  have k2 : strBeginsWith "<static>\n" "<from>" = false := by decide
  have k3 : strBeginsWith "</static>\n" "<from>" = false := by decide
  have k4 : strBeginsWith "<transition>\n" "<from>" = false := by decide
  have k5 : strBeginsWith "</transition>\n" "<from>" = false := by decide
  simp [fromLines, image_xml, List.filter, e1, e2, e3, e4, e5, k1, k2, k3, k4, k5]

theorem fileLines_image_xml (d t : Int) (tgt a b : String) :
    fileLines (image_xml d t tgt a b) = ["<file>" ++ (joinPath tgt a ++ "</file>\n")] := by
  have e1 : strBeginsWith ("<duration>" ++ (mul60_text d ++ "</duration>\n")) "<file>" = false :=
    strBeginsWith_append_false _ _ _ 3 (by decide) (by decide) (by decide)
  have e2 : strBeginsWith ("<file>" ++ (joinPath tgt a ++ "</file>\n")) "<file>" = true := by
    rw [strBeginsWith_append _ _ _ (by decide)]; decide
  have e3 : strBeginsWith ("<duration>" ++ (toString t ++ "</duration>\n")) "<file>" = false :=
    strBeginsWith_append_false _ _ _ 3 (by decide) (by decide) (by decide)
  have e4 : strBeginsWith ("<from>" ++ (joinPath tgt a ++ "</from>\n")) "<file>" = false :=
    strBeginsWith_append_false _ _ _ 3 (by decide) (by decide) (by decide)
  have e5 : strBeginsWith ("<to>" ++ (joinPath tgt b ++ "</to>\n")) "<file>" = false :=
    strBeginsWith_append_false _ _ _ 3 (by decide) (by decide) (by decide)
  have k1 : strBeginsWith "-\n" "<file>" = false := by decide
  have k2 : strBeginsWith "<static>\n" "<file>" = false := by decide
  have k3 : strBeginsWith "</static>\n" "<file>" = false := by decide
  have k4 : strBeginsWith "<transition>\n" "<file>" = false := by decide
  have k5 : strBeginsWith "</transition>\n" "<file>" = false := by decide
  simp [fileLines, image_xml, List.filter, e1, e2, e3, e4, e5, k1, k2, k3, k4, k5]

theorem toLines_flatMap (d t : Int) (tgt : String) (pairs : List (String × String)) :
    toLines (pairs.flatMap (fun p => image_xml d t tgt p.1 p.2)) =
      pairs.map (fun p => "<to>" ++ (joinPath tgt p.2 ++ "</to>\n")) := by
  induction pairs with
  | nil => rfl
  | cons p ps ih => simp [List.flatMap_cons, toLines_append, toLines_image_xml, ih]

theorem fromLines_flatMap (d t : Int) (tgt : String) (pairs : List (String × String)) :
    fromLines (pairs.flatMap (fun p => image_xml d t tgt p.1 p.2)) =
      pairs.map (fun p => "<from>" ++ (joinPath tgt p.1 ++ "</from>\n")) := by
  induction pairs with
  | nil => rfl
  | cons p ps ih => simp [List.flatMap_cons, fromLines_append, fromLines_image_xml, ih]

theorem toLines_xml_body (images : List String) (d t : Int) (tgt : String) :
    toLines (xml_body images d t tgt) =
      (pair_elements images).map (fun p => "<to>" ++ (joinPath tgt p.2 ++ "</to>\n")) := by
  unfold xml_body
  rw [toLines_append, toLines_append, toLines_flatMap]
  have hh : toLines header = [] := by decide
  have ht : toLines ["</background>\n"] = [] := by decide
  simp [hh, ht]

theorem fromLines_xml_body (images : List String) (d t : Int) (tgt : String) :
    fromLines (xml_body images d t tgt) =
      (pair_elements images).map (fun p => "<from>" ++ (joinPath tgt p.1 ++ "</from>\n")) := by
  unfold xml_body
  rw [fromLines_append, fromLines_append, fromLines_flatMap]
  have hh : fromLines header = [] := by decide
  have ht : fromLines ["</background>\n"] = [] := by decide
  simp [hh, ht]

/-! Helper lemmas about the cyclic pairing. -/

theorem pair_elements_eq_mod (l : List String) :
    pair_elements l =
      (List.range l.length).map (fun i => (l.getD i "", l.getD ((i + 1) % l.length) "")) := by
  unfold pair_elements
  apply List.map_congr_left
  intro i hi
  have hilt : i < l.length := List.mem_range.mp hi
  by_cases hc : i < l.length - 1
  · have h1 : i + 1 < l.length := by omega
    simp [hc, Nat.mod_eq_of_lt h1]
  · have h2 : i = l.length - 1 := by omega
    have h3 : i + 1 = l.length := by omega
    simp [hc, h3, Nat.mod_self]

theorem pair_elements_length (l : List String) :
    (pair_elements l).length = l.length := by
  simp [pair_elements]

theorem getLastD_concat (l : List α) (a d : α) : (l ++ [a]).getLastD d = a := by
  induction l with
  | nil => rfl
  | cons x xs ih => simp [List.getLastD, ih]

theorem pair_elements_getLastD (l : List String) (h : l ≠ []) :
    (pair_elements l).getLastD ("", "") = (l.getD (l.length - 1) "", l.getD 0 "") := by
  obtain ⟨m, hm⟩ : ∃ m, l.length = m + 1 := by
    cases l with
    | nil => exact absurd rfl h
    | cons x xs => exact ⟨xs.length, rfl⟩
  rw [pair_elements_eq_mod, hm, List.range_succ, List.map_append, List.map_singleton,
    getLastD_concat]
  simp [hm, Nat.mod_self]

theorem toLines_getLastD (images : List String) (d t : Int) (tgt : String)
    (h : images ≠ []) :
    (toLines (xml_body images d t tgt)).getLastD "" =
      "<to>" ++ (joinPath tgt (images.getD 0 "") ++ "</to>\n") := by
  obtain ⟨m, hm⟩ : ∃ m, images.length = m + 1 := by
    cases images with
    | nil => exact absurd rfl h
    | cons x xs => exact ⟨xs.length, rfl⟩
  rw [toLines_xml_body, pair_elements_eq_mod, List.map_map, hm, List.range_succ,
    List.map_append, List.map_singleton, getLastD_concat]
  simp [hm, Nat.mod_self]

/-! Helper lemmas about argument validation and `main`. -/

theorem parse_arguments_ok (fsIsDir : Bool) (args a : Arguments)
    (h : parse_arguments fsIsDir args = .ok a) :
    fsIsDir = true ∧ 0 < args.image_duration ∧ 0 ≤ args.transition_duration ∧ a = args := by
  unfold parse_arguments at h
  split_ifs at h with h1 h2 h3
  refine ⟨by simpa using h1, by omega, by omega, ?_⟩
  injection h with h4
  exact h4.symm

theorem parse_arguments_true_error (args : Arguments) (e : ArgError)
    (h : parse_arguments true args = .error e) : e.isDurationError = true := by
  unfold parse_arguments at h
  split_ifs at h <;>
    first
      | (injection h with h4; rw [← h4]; rfl)
      | simp_all

theorem main_ok (dirListing : List String) (args : Arguments)
    (hd : 0 < args.image_duration) (ht : 0 ≤ args.transition_duration) :
    main true dirListing args =
      .ok ([FsEffect.mkdir (target_directory_path args)] ++
        (create_xml_file dirListing args.image_duration args.transition_duration
          (target_directory_path args)).map (fun w => FsEffect.writeFile w.1 w.2) ++
        dirListing.map (fun image_name =>
          FsEffect.copyFile (joinPath args.images_directory_path image_name)
            (joinPath (target_directory_path args) image_name))) := by
  have h1 : ¬ args.image_duration ≤ 0 := by omega
  have h2 : ¬ args.transition_duration < 0 := by omega
  simp [main, parse_arguments, h1, h2]

/-! The claims. -/

/-- C10: for every source directory, the image list the Builder iterates over
is the concatenation of three groups in this fixed order: all entries matching
`*.jpg`, then all entries matching `*.jpeg`, then all entries matching
`*.png`, each group in directory-listing order. -/
theorem c10_extension_group_order (dirListing : List String) :
    glob_all_extensions dirListing extensions =
      glob_extension dirListing "jpg" ++
        (glob_extension dirListing "jpeg" ++ glob_extension dirListing "png") := by
  simp [glob_all_extensions, extensions, List.foldl, List.append_assoc]

/-- C8: when the enumerated image list is empty (for instance for an empty
source directory), the Builder produces a descriptor consisting of the header
(start-time block) and the terminator only, with zero static segments and zero
transition segments, for every duration and destination: a defined result, not
an error. -/
theorem c8_empty_descriptor (image_duration transition_duration : Int) (target : String) :
    xml_content [] image_duration transition_duration target =
      header ++ ["</background>\n"] ∧
    xml_body [] image_duration transition_duration target =
      header ++ ["</background>\n"] ∧
    countLine "<static>\n"
      (xml_content [] image_duration transition_duration target) = 0 ∧
    countLine "<transition>\n"
      (xml_content [] image_duration transition_duration target) = 0 := by
  refine ⟨rfl, rfl, rfl, rfl⟩

/-- C4 counterexample: the descriptor does not begin with the start-time block
in the documented layout (year and month on one line); it begins with the
same constants with year and month each on its own line. -/
theorem c4_counterexample :
    strBeginsWith (String.join (xml_content ["a.jpg"] 5 3 "/dest/pics"))
      spec_documented_start_block = false ∧
    strBeginsWith (String.join (xml_content ["a.jpg"] 5 3 "/dest/pics"))
      emitted_start_block = true := by
  refine ⟨by decide, by decide⟩

/-- C4 (amended): for every input, the descriptor begins with the fixed,
hard-coded start-time block — year 2009, month 08, day 04, hour, minute and
second 00, each element on its own line — independent of the images,
durations and destination supplied. -/
theorem c4_fixed_start_block (dirListing : List String)
    (image_duration transition_duration : Int) (target : String) :
    (xml_content dirListing image_duration transition_duration target).take 9 = header ∧
    header =
      [ "<background>\n",
        "-\n",
        "<starttime>\n",
        "<year>2009</year>\n<month>08</month>\n",
        "<day>04</day>\n",
        "<hour>00</hour>\n",
        "<minute>00</minute>\n",
        "<second>00</second>\n",
        "</starttime>\n" ] ∧
    String.join header = emitted_start_block := by
  refine ⟨?_, rfl, rfl⟩
  unfold xml_content xml_body
  rw [List.append_assoc, List.take_append_of_le_length (by decide)]
  decide

/-- C6 counterexample: `create_xml_file` does perform file I/O — on a concrete
input its list of filesystem writes is not empty. -/
theorem c6_counterexample :
    ¬ (create_xml_file ["a.jpg"] 5 3 "/dest/pics" = []) ∧
    (create_xml_file ["a.jpg"] 5 3 "/dest/pics").length = 1 := by
  refine ⟨by decide, by decide⟩

/-- C6 (amended): for every input, the Builder produces the descriptor text
and performs exactly one filesystem effect: writing that text to the file
named after the destination directory inside it.  It performs no other
filesystem change and no network I/O. -/
theorem c6_single_write (dirListing : List String)
    (image_duration transition_duration : Int) (target : String) :
    create_xml_file dirListing image_duration transition_duration target =
      [ (joinPath target (pathName target ++ ".xml"),
         String.join (header ++
           (pair_elements (glob_all_extensions dirListing extensions)).flatMap (fun p =>
             image_xml image_duration transition_duration target p.1 p.2) ++
           ["</background>\n"])) ] ∧
    (create_xml_file dirListing image_duration transition_duration target).length = 1 := by
  refine ⟨rfl, rfl⟩

/-- C2 counterexample: in the end-to-end scenario (source entries `a.jpg`,
`b.png`, `c.jpeg`; durations 5 and 3; destination `/dest/mydir`) the pairing
sequence is not (a→b), (b→c), (c→a). -/
theorem c2_counterexample :
    ¬ (fromLines (xml_content ["a.jpg", "b.png", "c.jpeg"] 5 3 "/dest/mydir") =
        [ "<from>/dest/mydir/a.jpg</from>\n",
          "<from>/dest/mydir/b.png</from>\n",
          "<from>/dest/mydir/c.jpeg</from>\n" ] ∧
       toLines (xml_content ["a.jpg", "b.png", "c.jpeg"] 5 3 "/dest/mydir") =
        [ "<to>/dest/mydir/b.png</to>\n",
          "<to>/dest/mydir/c.jpeg</to>\n",
          "<to>/dest/mydir/a.jpg</to>\n" ]) := by
  decide

/-- C2 (amended): in the end-to-end scenario the descriptor contains exactly
3 static/transition pairs, every file path is rendered as
`/dest/mydir/<name>`, and the transition sequence follows the extension-group
enumeration order (a.jpg → c.jpeg), (c.jpeg → b.png), (b.png → a.jpg). -/
theorem c2_end_to_end :
    countLine "<static>\n" (xml_content ["a.jpg", "b.png", "c.jpeg"] 5 3 "/dest/mydir") = 3 ∧
    countLine "<transition>\n"
      (xml_content ["a.jpg", "b.png", "c.jpeg"] 5 3 "/dest/mydir") = 3 ∧
    fromLines (xml_content ["a.jpg", "b.png", "c.jpeg"] 5 3 "/dest/mydir") =
      [ "<from>/dest/mydir/a.jpg</from>\n",
        "<from>/dest/mydir/c.jpeg</from>\n",
        "<from>/dest/mydir/b.png</from>\n" ] ∧
    toLines (xml_content ["a.jpg", "b.png", "c.jpeg"] 5 3 "/dest/mydir") =
      [ "<to>/dest/mydir/c.jpeg</to>\n",
        "<to>/dest/mydir/b.png</to>\n",
        "<to>/dest/mydir/a.jpg</to>\n" ] ∧
    fileLines (xml_content ["a.jpg", "b.png", "c.jpeg"] 5 3 "/dest/mydir") =
      [ "<file>/dest/mydir/a.jpg</file>\n",
        "<file>/dest/mydir/c.jpeg</file>\n",
        "<file>/dest/mydir/b.png</file>\n" ] := by
  refine ⟨by decide, by decide, by decide, by decide, by decide⟩

/-- C5 counterexample: DurationError is not the only error the Builder can
raise — the image duration 10^400 passes validation (it is positive), yet
with one image the Builder raises OverflowError from the duration f-string
before writing anything. -/
theorem c5_counterexample :
    (0 : Int) < 10 ^ 400 ∧
    parse_arguments true ⟨"/pics", 10 ^ 400, 3, none⟩ =
      .ok ⟨"/pics", 10 ^ 400, 3, none⟩ ∧
    create_xml_file_run ["a.jpg"] (10 ^ 400) 3 "/usr/share/backgrounds/pics" =
      .error .overflowError :=
  ⟨by positivity, rfl, rfl⟩

/-- C5 (amended): with the source path validated as a directory, validation
raises the image duration error on an image duration ≤ 0 and the transition
duration error on a transition duration < 0 (the DurationError category of
the spec), and these are the only validation errors; the Builder itself
succeeds whenever the image duration survives int-to-float conversion, but an
image duration beyond the binary64 range makes it raise OverflowError
whenever the globbed image list is non-empty — so DurationError is not the
only error the Builder can raise. -/
theorem c5_validation_and_overflow (dirListing : List String) (args : Arguments) :
    (args.image_duration ≤ 0 →
      main true dirListing args = .error (.image_duration_error args.image_duration)) ∧
    (0 < args.image_duration → args.transition_duration < 0 →
      main true dirListing args =
        .error (.transition_duration_error args.transition_duration)) ∧
    (∀ e, main true dirListing args = .error e → e.isDurationError = true) ∧
    (∀ s, py_mul60_string args.image_duration = .ok s →
      create_xml_file_run dirListing args.image_duration args.transition_duration
          (target_directory_path args) =
        .ok (create_xml_file dirListing args.image_duration args.transition_duration
          (target_directory_path args))) ∧
    (py_mul60_string args.image_duration = .error .overflowError →
      glob_all_extensions dirListing extensions ≠ [] →
      create_xml_file_run dirListing args.image_duration args.transition_duration
          (target_directory_path args) = .error .overflowError) := by
  refine ⟨?_, ?_, ?_, ?_, ?_⟩
  · intro h
    simp [main, parse_arguments, h]
  · intro h1 h2
    have h3 : ¬ args.image_duration ≤ 0 := by omega
    simp [main, parse_arguments, h3, h2]
  · intro e he
    unfold main at he
    cases hpa : parse_arguments true args with
    | error e2 =>
        rw [hpa] at he
        injection he with h4
        subst h4
        exact parse_arguments_true_error args e2 hpa
    | ok a =>
        rw [hpa] at he
        simp at he
  · intro s hs
    unfold create_xml_file_run
    rw [hs]
  · intro hof hne
    unfold create_xml_file_run
    rw [hof]
    simp [hne]

/-- C5 witness: image duration 0 raises the image duration error; duration 5
is converted exactly and the Builder run performs its write; duration 10^400
is valid but the Builder run raises OverflowError. -/
theorem c5_validation_and_overflow_witness :
    main true ["a.jpg"] ⟨"/pics", 0, 3, none⟩ = .error (.image_duration_error 0) ∧
    create_xml_file_run ["a.jpg"] 5 3 (target_directory_path ⟨"/pics", 5, 3, none⟩) =
      .ok (create_xml_file ["a.jpg"] 5 3 (target_directory_path ⟨"/pics", 5, 3, none⟩)) ∧
    create_xml_file_run ["a.jpg"] (10 ^ 400) 3
        (target_directory_path ⟨"/pics", 10 ^ 400, 3, none⟩) = .error .overflowError :=
  ⟨(c5_validation_and_overflow ["a.jpg"] ⟨"/pics", 0, 3, none⟩).1 (by decide),
   (c5_validation_and_overflow ["a.jpg"] ⟨"/pics", 5, 3, none⟩).2.2.2.1 "300.0" rfl,
   (c5_validation_and_overflow ["a.jpg"] ⟨"/pics", 10 ^ 400, 3, none⟩).2.2.2.2 rfl
     (by decide)⟩

/-- C9: argument validation completes before any filesystem mutation: when
the source path is not a directory, the image duration is ≤ 0, or the
transition duration is < 0, the program stops with an error and performs no
filesystem effect at all. -/
theorem c9_validation_before_mutation (fsIsDir : Bool) (dirListing : List String)
    (args : Arguments)
    (h : fsIsDir = false ∨ args.image_duration ≤ 0 ∨ args.transition_duration < 0) :
    (∃ e, main fsIsDir dirListing args = .error e) ∧
    effectsOf (main fsIsDir dirListing args) = [] := by
  cases hpa : parse_arguments fsIsDir args with
  | error e =>
      refine ⟨⟨e, ?_⟩, ?_⟩
      · simp [main, hpa]
      · simp [main, hpa, effectsOf]
  | ok a =>
      obtain ⟨h1, h2, h3, _⟩ := parse_arguments_ok fsIsDir args a hpa
      rcases h with h | h | h
      · rw [h1] at h
        exact absurd h (by decide)
      · omega
      · omega

/-- C9 witness: with a non-directory source path the program errors out and
the filesystem effect list is empty. -/
theorem c9_validation_before_mutation_witness :
    (∃ e, main false ["a.jpg"] ⟨"/pics", 5, 3, none⟩ = .error e) ∧
    effectsOf (main false ["a.jpg"] ⟨"/pics", 5, 3, none⟩) = [] :=
  c9_validation_before_mutation false ["a.jpg"] ⟨"/pics", 5, 3, none⟩ (Or.inl rfl)

/-- C7 counterexample: the copy step does not copy exactly the files matching
the three image extensions — with source entries `a.jpg` and `notes.txt` it
copies `notes.txt` as well. -/
theorem c7_counterexample :
    ¬ ((effectsOf (main true ["a.jpg", "notes.txt"] ⟨"/pics", 5, 3, some "mydir"⟩)).filter
          FsEffect.isCopy =
        (glob_all_extensions ["a.jpg", "notes.txt"] extensions).map (fun image_name =>
          FsEffect.copyFile (joinPath "/pics" image_name)
            (joinPath "/usr/share/backgrounds/mydir" image_name))) ∧
    (effectsOf (main true ["a.jpg", "notes.txt"] ⟨"/pics", 5, 3, some "mydir"⟩)).filter
        FsEffect.isCopy =
      [ FsEffect.copyFile "/pics/a.jpg" "/usr/share/backgrounds/mydir/a.jpg",
        FsEffect.copyFile "/pics/notes.txt" "/usr/share/backgrounds/mydir/notes.txt" ] := by
  refine ⟨by decide, by decide⟩

/-- C7 (amended): the copy step copies every entry of the source directory —
the glob pattern `*`, so regardless of extension and without recursion — into
the destination directory, one copy per entry, overwriting silently. -/
theorem c7_copies_all_entries (dirListing : List String) (args : Arguments)
    (hd : 0 < args.image_duration) (ht : 0 ≤ args.transition_duration) :
    (effectsOf (main true dirListing args)).filter FsEffect.isCopy =
      dirListing.map (fun image_name =>
        FsEffect.copyFile (joinPath args.images_directory_path image_name)
          (joinPath (target_directory_path args) image_name)) := by
  rw [main_ok dirListing args hd ht]
  simp only [effectsOf]
  rw [List.filter_append, List.filter_append]
  have hmk : ([FsEffect.mkdir (target_directory_path args)]).filter FsEffect.isCopy = [] := rfl
  have hw : ((create_xml_file dirListing args.image_duration args.transition_duration
      (target_directory_path args)).map
        (fun w => FsEffect.writeFile w.1 w.2)).filter FsEffect.isCopy = [] := rfl
  rw [hmk, hw, List.nil_append, List.nil_append]
  refine List.filter_eq_self.mpr ?_
  intro a ha
  obtain ⟨n, _, rfl⟩ := List.mem_map.mp ha
  rfl

/-- C7 witness: with two entries, one image and one text file, the copy
effects are exactly one copy per entry into the target directory. -/
theorem c7_copies_all_entries_witness :
    (effectsOf (main true ["x.png", "y.txt"] ⟨"/s", 2, 0, none⟩)).filter FsEffect.isCopy =
      (["x.png", "y.txt"] : List String).map (fun image_name =>
        FsEffect.copyFile (joinPath "/s" image_name)
          (joinPath (target_directory_path ⟨"/s", 2, 0, none⟩) image_name)) :=
  c7_copies_all_entries ["x.png", "y.txt"] ⟨"/s", 2, 0, none⟩ (by decide) (by decide)

theorem dblScale_succ (fuel n p : Nat) :
    dblScale (fuel + 1) n p = if n < p then 0 else dblScale fuel n (2 * p) + 1 := rfl

theorem roundTo53_small (n : Nat) (h : n < 2 ^ 53) : roundTo53 n = n := by
  unfold roundTo53
  rw [show (2200 : Nat) = 2199 + 1 from rfl, dblScale_succ, if_pos h]
  simp [Nat.mod_one, Nat.div_one]

theorem roundTo53_even (n : Nat) (h1 : 2 ^ 53 ≤ n) (h2 : n < 2 ^ 54) (h3 : n % 2 = 0) :
    roundTo53 n = n := by
  have hdbl : 2 * 2 ^ 53 = 2 ^ 54 := by ring
  have hs : dblScale 2200 n (2 ^ 53) = 1 := by
    rw [show (2200 : Nat) = 2199 + 1 from rfl, dblScale_succ, if_neg (Nat.not_lt.mpr h1),
      show (2199 : Nat) = 2198 + 1 from rfl, dblScale_succ,
      if_pos (by rw [hdbl]; exact h2)]
  have h4 : 2 ∣ n := Nat.dvd_of_mod_eq_zero h3
  unfold roundTo53
  rw [hs]
  simp only [pow_one, h3]
  norm_num [Nat.div_mul_cancel h4]

theorem py_mul60_string_exact (d : Int) (hd : 0 < d) (hb : d * 60 < 10 ^ 16) :
    py_mul60_string d = .ok (toString (d * 60) ++ ".0") := by
  obtain ⟨n, rfl⟩ := Int.eq_ofNat_of_zero_le hd.le
  have e16 : (10 : Nat) ^ 16 = 10000000000000000 := by norm_num
  have e53 : (2 : Nat) ^ 53 = 9007199254740992 := by norm_num
  have e54 : (2 : Nat) ^ 54 = 18014398509481984 := by norm_num
  have hn : n * 60 < 10 ^ 16 := by exact_mod_cast hb
  rw [e16] at hn
  have hn53 : n < 2 ^ 53 := by rw [e53]; omega
  have h60 : 60 * n < 2 ^ 54 := by rw [e54]; omega
  have hr1 : roundTo53 n = n := roundTo53_small n hn53
  have hr2 : roundTo53 (60 * n) = 60 * n := by
    by_cases hc : 60 * n < 2 ^ 53
    · exact roundTo53_small _ hc
    · exact roundTo53_even _ (Nat.le_of_not_lt hc) h60 (by omega)
  have hp : (2 : Nat) ^ 54 ≤ 2 ^ 1024 := Nat.pow_le_pow_right (by norm_num) (by norm_num)
  have hbig1 : ¬ 2 ^ 1024 ≤ n := fun hcon =>
    absurd hcon (Nat.not_le.mpr (lt_of_lt_of_le (lt_of_lt_of_le hn53
      (Nat.pow_le_pow_right (by norm_num) (by norm_num))) le_rfl))
  have hbig2 : ¬ 2 ^ 1024 ≤ 60 * n := fun hcon =>
    absurd hcon (Nat.not_le.mpr (lt_of_lt_of_le h60 hp))
  have hneg : ¬ ((n : Int) < 0) := by
    exact Int.not_lt.mpr (Int.ofNat_nonneg n)
  unfold py_mul60_string float_of_int
  simp only [Int.natAbs_ofNat, hr1, if_neg hbig1, if_neg hneg]
  unfold float_mul60
  simp only [Int.natAbs_ofNat, hr2, if_neg hbig2, if_neg hneg]
  unfold float_repr posIntegralRepr
  have hneg2 : ¬ ((60 * n : Nat) : Int) < 0 := Int.not_lt.mpr (Int.ofNat_nonneg _)
  have hcast : ((n : Int) * 60) = ((60 * n : Nat) : Int) := by push_cast; ring
  have hlt : 60 * n < 10 ^ 16 := by rw [e16]; omega
  simp only [if_neg hneg2, Int.natAbs_ofNat, if_pos hlt]
  rw [hcast]
  rfl

theorem mul60_text_exact (d : Int) (hd : 0 < d) (hb : d * 60 < 10 ^ 16) :
    mul60_text d = toString (d * 60) ++ ".0" := by
  unfold mul60_text
  rw [py_mul60_string_exact d hd hb]

/-- C3 counterexample: at the valid image duration 166666666666667 the
product with 60.0 reaches 10^16 and CPython renders it in scientific
notation, so the emitted static duration text is not the integer digits with
a `.0` suffix. -/
theorem c3_counterexample :
    (0 : Int) < 166666666666667 ∧
    mul60_text 166666666666667 = "1.000000000000002e+16" ∧
    ¬ mul60_text 166666666666667 =
        toString ((166666666666667 : Int) * 60) ++ ".0" ∧
    (image_xml 166666666666667 3 "/dest/pics" "a.jpg" "a.jpg").getD 2 "" =
      "<duration>1.000000000000002e+16</duration>\n" := by
  refine ⟨by decide, by decide, by decide, by decide⟩

/-- C3 (amended): for every positive image duration whose value times 60
stays below 10^16 — the full range in which CPython renders the integral
float exactly — each emitted static segment's duration text is the image
duration times 60 rendered with an explicit `.0` fractional component; each
emitted transition segment's duration text is the transition duration
rendered verbatim as an integer, for any value ≥ 0. -/
theorem c3_duration_rendering_bounded (images : List String)
    (image_duration transition_duration : Int) (target : String)
    (hd : 0 < image_duration) (hb : image_duration * 60 < 10 ^ 16)
    (ht : 0 ≤ transition_duration) :
    ∀ p ∈ pair_elements images,
      (image_xml image_duration transition_duration target p.1 p.2).getD 2 "" =
        "<duration>" ++ ((toString (image_duration * 60) ++ ".0") ++ "</duration>\n") ∧
      (image_xml image_duration transition_duration target p.1 p.2).getD 7 "" =
        "<duration>" ++ (toString transition_duration ++ "</duration>\n") := by
  intro p hp
  constructor
  · have h2 : (image_xml image_duration transition_duration target p.1 p.2).getD 2 "" =
        "<duration>" ++ (mul60_text image_duration ++ "</duration>\n") := rfl
    rw [h2, mul60_text_exact image_duration hd hb]
  · rfl

/-- C3 witness: with image duration 5 (300 seconds, far below the
exact-rendering bound) and transition duration 3 the emitted texts are
`300.0` and `3`. -/
theorem c3_duration_rendering_bounded_witness :
    ("a", "b") ∈ pair_elements ["a", "b"] ∧
    ((image_xml 5 3 "/dest/pics" "a" "b").getD 2 "" =
        "<duration>" ++ ((toString ((5 : Int) * 60) ++ ".0") ++ "</duration>\n") ∧
      (image_xml 5 3 "/dest/pics" "a" "b").getD 7 "" =
        "<duration>" ++ (toString (3 : Int) ++ "</duration>\n")) ∧
    (image_xml 5 3 "/dest/pics" "a" "b").getD 2 "" = "<duration>300.0</duration>\n" ∧
    (image_xml 5 3 "/dest/pics" "a" "b").getD 7 "" = "<duration>3</duration>\n" :=
  ⟨by decide,
   c3_duration_rendering_bounded ["a", "b"] 5 3 "/dest/pics" (by decide)
     (by decide) (by decide) ("a", "b") (by decide),
   by decide, by decide⟩

/-- C1: for every non-empty image list of length N the Builder emits exactly
N static segments and N transition segments, pairs the image at index i with
the image at index (i + 1) mod N, the last transition's to-line names the
destination path of the first image, and for N = 1 the single pair is a
self-loop. -/
theorem c1_cyclic_pairing (images : List String)
    (image_duration transition_duration : Int) (target : String) (h : images ≠ []) :
    countLine "<static>\n"
      (xml_body images image_duration transition_duration target) = images.length ∧
    countLine "<transition>\n"
      (xml_body images image_duration transition_duration target) = images.length ∧
    pair_elements images =
      (List.range images.length).map (fun i =>
        (images.getD i "", images.getD ((i + 1) % images.length) "")) ∧
    (toLines (xml_body images image_duration transition_duration target)).getLastD "" =
      "<to>" ++ (joinPath target (images.getD 0 "") ++ "</to>\n") ∧
    (images.length = 1 →
      pair_elements images = [(images.getD 0 "", images.getD 0 "")]) := by
  refine ⟨countLine_static_xml_body images image_duration transition_duration target,
    countLine_transition_xml_body images image_duration transition_duration target,
    pair_elements_eq_mod images,
    toLines_getLastD images image_duration transition_duration target h, ?_⟩
  intro h1
  rw [pair_elements_eq_mod, h1]
  simp [Nat.mod_one, show List.range 1 = [0] from rfl]

/-- C1 witness: with two images the descriptor holds two static and two
transition segments and the last to-line names the first image; with one
image the single pair is a self-loop. -/
theorem c1_cyclic_pairing_witness :
    ((["a", "b"] : List String) ≠ [] ∧
      countLine "<static>\n" (xml_body ["a", "b"] 5 3 "/dest/pics") = 2 ∧
      countLine "<transition>\n" (xml_body ["a", "b"] 5 3 "/dest/pics") = 2 ∧
      (toLines (xml_body ["a", "b"] 5 3 "/dest/pics")).getLastD "" =
        "<to>/dest/pics/a</to>\n") ∧
    pair_elements ["a"] = [("a", "a")] := by
  have h := c1_cyclic_pairing ["a", "b"] 5 3 "/dest/pics" (by decide)
  have h2 := c1_cyclic_pairing ["a"] 5 3 "/dest/pics" (by decide)
  exact ⟨⟨by decide, h.1, h.2.1, by simpa using h.2.2.2.1⟩, by simpa using h2.2.2.2.2 rfl⟩

end MateSlideshow
